import Mathlib

/-!
Shallow embedding of the DocChat Django application
(src/docai/docchat/views.py and src/docai/docchat/forms.py).

The repository wires third-party services (PDF loading, text splitting,
embedding, vector index, language model) behind a single Django view
`home`.  External services are opaque to this repository, so they enter
the model as parameters (`Externals`); everything this repository does —
the four-way form dispatch, session mutation, the per-document index
cache `get_vectorstore`, form validation rules — is embedded as
executable Lean functions below, together with an event trace recording
the order of side effects (document save, index load/build, question
validation, QA invocation).
-/

namespace DocChat

/-- A (question, answer) pair stored in the session conversation list. -/
structure Entry where
  question : String
  answer : String
deriving DecidableEq, Repr

/-- A persisted `Document` model row: the primary key assigned by
`doc.save()` and the page-level text content that `PyPDFLoader.load()`
extracts from the uploaded file. -/
structure Document where
  id : Nat
  pages : List String
deriving DecidableEq, Repr

/-- The uploaded file from the multipart form: its name and the page
text that PDF parsing would extract from its bytes. -/
structure UploadedFile where
  name : String
  pages : List String
deriving DecidableEq, Repr

/-- The Django session dictionary: the three keys this app uses.
`none` means the key is absent from the session (popped or never set). -/
structure Session where
  uploaded_filename : Option String
  document_id : Option Nat
  conversation : Option (List Entry)
deriving DecidableEq, Repr

/-- The in-memory Chroma vectorstore handle: the directory it is keyed
to (`VECTORSTORE_DIR/<doc.id>`) and the chunk texts it indexes. -/
structure Vectorstore where
  persistId : Nat
  chunks : List String
deriving DecidableEq, Repr

/-- Observable state outside the session: the Document table, the
on-disk persisted vectorstores keyed by document id (directory presence
is the sole cache signal), the next primary key the database will
assign, and a counter of chunk-embedding service invocations. -/
structure World where
  docs : List Document
  fs : List (Nat × List String)
  nextId : Nat
  embedCalls : Nat
deriving DecidableEq, Repr

/-- Side effects of handling one request, in the order they happen. -/
inductive Event where
  | docSave (id : Nat)
  | indexLoad (id : Nat)
  | indexBuild (id : Nat)
  | validateQuestion
  | qaCall (question : String)
deriving DecidableEq, Repr

/-- The third-party pipeline pieces the repository delegates to:
`splitChunks` is `CharacterTextSplitter(chunk_size=1000, chunk_overlap=100)
.split_documents` on the loaded pages, and `qaRun` is the
`RetrievalQA` stuff-chain (retriever over the vectorstore chunks plus a
temperature-0 chat model) applied to a question. -/
structure Externals where
  splitChunks : List String → List String
  qaRun : List String → String → String

/-- The render context handed to a template: either
`docchat/upload_success.html` (filename, the errors carried by the
question form instance passed in, the conversation list) or
`docchat/upload.html` (the errors carried by the upload form passed as
`form`, and the optional `error` message). -/
inductive Response where
  | uploadSuccess (filename : Option String) (questionFormErrors : List String)
      (conversation : List Entry)
  | uploadPage (uploadFormErrors : List String) (error : Option String)
deriving DecidableEq, Repr

/-- What escapes the view: a rendered response, or an uncaught Python
exception propagating out of `home`. -/
inductive Outcome where
  | ok (resp : Response)
  | exn (name : String)
deriving DecidableEq, Repr

/-- Result of one call to the `home` view. -/
structure HomeResult where
  outcome : Outcome
  session : Session
  world : World
  events : List Event
deriving DecidableEq, Repr

/-- Python truthiness of an optional string session value
(`if not filename`): absent and empty string are falsy. -/
def pyTruthyStr : Option String → Bool
  | none => false
  | some s => s != ("")

/-- Python truthiness of an optional integer session value
(`if doc_id`): absent and 0 are falsy. -/
def pyTruthyNat : Option Nat → Bool
  | none => false
  | some n => n != 0

/-- Lookup of a persisted vectorstore directory by document id
(`os.path.exists(store_path)` plus loading its content). -/
def fsLookup : List (Nat × List String) → Nat → Option (List String)
  | [], _ => none
  | (k, v) :: rest, i => if k = i then some v else fsLookup rest i

/-- `Document.objects.get(id=i)`: fetch by primary key.  `none` models
the `Document.DoesNotExist` exception the ORM raises. -/
def findDoc : List Document → Nat → Option Document
  | [], _ => none
  | d :: rest, i => if d.id = i then some d else findDoc rest i

/-- The whitespace characters Python's `str.strip()` removes. -/
def pyIsSpace (c : Char) : Bool :=
  c == ' ' || c == '\t' || c == '\n' || c == '\r' || c == (Char.ofNat 11) || c == (Char.ofNat 12)

/-- Drop the leading whitespace of a character list. -/
def dropLeadingSpaces : List Char → List Char
  | [] => []
  | c :: cs => if pyIsSpace c then dropLeadingSpaces cs else c :: cs

/-- Python's `str.strip()`: remove leading and trailing whitespace. -/
def pyStrip (s : String) : String :=
  String.mk (dropLeadingSpaces ((dropLeadingSpaces s.data.reverse).reverse))

/-- Validation of `QuestionForm` (forms.py line 7): a required
`CharField` with `max_length=500`.  Django strips surrounding
whitespace, rejects a missing or (post-strip) empty value, and rejects
a value longer than 500 characters; on success the cleaned (stripped)
value is returned. -/
def cleanedQuestion : Option String → Option String
  | none => none
  | some s =>
      let t := pyStrip s
      if t = ("") then none
      else if t.length ≤ 500 then some t
      else none

/-- Result of `get_vectorstore`: the store it returns, the world after
its side effects, and the trace of what it did. -/
structure GVResult where
  store : Vectorstore
  world : World
  events : List Event
deriving Repr

/-- views.py lines 38-57, `get_vectorstore(doc)`: if a persisted store
exists at `VECTORSTORE_DIR/<doc.id>`, load it (no embedding of the
document, no rebuild); otherwise load the PDF, split it into chunks,
embed each chunk (one embedding-service call per chunk), persist the
new store at that path, and return it. -/
def get_vectorstore (ext : Externals) (w : World) (doc : Document) : GVResult :=
  match fsLookup w.fs doc.id with
  | some chunks =>
      { store := { persistId := doc.id, chunks := chunks }
        world := w
        events := [Event.indexLoad doc.id] }
  | none =>
      let texts := ext.splitChunks doc.pages
      { store := { persistId := doc.id, chunks := texts }
        world := { w with
                    fs := (doc.id, texts) :: w.fs
                    embedCalls := w.embedCalls + texts.length }
        events := [Event.indexBuild doc.id] }

/-- One incoming HTTP request: the method, which of the four action
markers are present in the POST body, and the two form fields. -/
structure Request where
  isPost : Bool
  upload_file : Bool
  ask_question : Bool
  reset : Bool
  clear_chat : Bool
  questionField : Option String
  fileField : Option UploadedFile
deriving Repr

/-- views.py lines 67-89, the upload branch: bind `DocumentUploadForm`;
if valid (a file is present), save a new `Document`, set the three
session keys (conversation reset to `[]`), build the vectorstore
synchronously, and render `upload_success.html`; if invalid, fall
through to the final render of `upload.html` with the bound form's
errors and no `error` message. -/
def homeUpload (ext : Externals) (w : World) (sess : Session) (req : Request) : HomeResult :=
  match req.fileField with
  | some f =>
      let doc : Document := { id := w.nextId, pages := f.pages }
      let w1 : World := { w with docs := w.docs ++ [doc], nextId := w.nextId + 1 }
      let sess1 : Session :=
        { uploaded_filename := some f.name
          document_id := some doc.id
          conversation := some [] }
      let gv := get_vectorstore ext w1 doc
      { outcome := Outcome.ok (Response.uploadSuccess (some f.name) [] [])
        session := sess1
        world := gv.world
        events := Event.docSave doc.id :: gv.events }
  | none =>
      { outcome := Outcome.ok (Response.uploadPage [("This field is required.")] none)
        session := sess
        world := w
        events := [] }

/-- views.py lines 92-125, the ask branch: with no (truthy) uploaded
filename, render `upload.html` with the "Please upload a document
first." error; `doc = Document.objects.get(id=doc_id) if doc_id else
None` — a falsy doc_id yields `None` and the "File missing." render,
while a truthy doc_id with no matching row raises `DoesNotExist`
uncaught; otherwise load/build the vectorstore, then validate the
question form; if valid, run the QA chain, append {question, answer} to
the session conversation; in both cases render `upload_success.html`
with a fresh `QuestionForm()` (no errors) and the current session
conversation. -/
def homeAsk (ext : Externals) (w : World) (sess : Session) (req : Request) : HomeResult :=
  let filename := sess.uploaded_filename
  if !(pyTruthyStr filename) then
    { outcome := Outcome.ok (Response.uploadPage [] (some ("Please upload a document first.")))
      session := sess
      world := w
      events := [] }
  else if !(pyTruthyNat sess.document_id) then
    { outcome := Outcome.ok (Response.uploadPage [] (some ("File missing.")))
      session := sess
      world := w
      events := [] }
  else
    match findDoc w.docs (sess.document_id.getD 0) with
    | none =>
        { outcome := Outcome.exn ("Document.DoesNotExist")
          session := sess
          world := w
          events := [] }
    | some doc =>
        let gv := get_vectorstore ext w doc
        match cleanedQuestion req.questionField with
        | some q =>
            let ans := ext.qaRun gv.store.chunks q
            let conv := sess.conversation.getD [] ++ [{ question := q, answer := ans }]
            { outcome := Outcome.ok (Response.uploadSuccess filename [] conv)
              session := { sess with conversation := some conv }
              world := gv.world
              events := gv.events ++ [Event.validateQuestion, Event.qaCall q] }
        | none =>
            { outcome := Outcome.ok
                (Response.uploadSuccess filename [] (sess.conversation.getD []))
              session := sess
              world := gv.world
              events := gv.events ++ [Event.validateQuestion] }

/-- views.py lines 128-132, the reset branch: pop all three session
keys and render `upload.html` with a fresh form and no error. -/
def homeReset (w : World) (_sess : Session) : HomeResult :=
  { outcome := Outcome.ok (Response.uploadPage [] none)
    session := { uploaded_filename := none, document_id := none, conversation := none }
    world := w
    events := [] }

/-- views.py lines 135-143, the clear-chat branch: set the conversation
to `[]`, leave the other keys, and render `upload_success.html` with
the session filename, a fresh `QuestionForm()` and an empty
conversation. -/
def homeClear (w : World) (sess : Session) : HomeResult :=
  { outcome := Outcome.ok (Response.uploadSuccess sess.uploaded_filename [] [])
    session := { sess with conversation := some [] }
    world := w
    events := [] }

/-- views.py lines 60-145, the `home` view: the `if/elif` chain
dispatching on method POST and the four action markers, in source
order (upload_file, ask_question, reset, clear_chat); anything else
falls to the final render of `upload.html` with a fresh form. -/
def home (ext : Externals) (w : World) (sess : Session) (req : Request) : HomeResult :=
  if req.isPost && req.upload_file then
    homeUpload ext w sess req
  else if req.isPost && req.ask_question then
    homeAsk ext w sess req
  else if req.isPost && req.reset then
    homeReset w sess
  else if req.isPost && req.clear_chat then
    homeClear w sess
  else
    { outcome := Outcome.ok (Response.uploadPage [] none)
      session := sess
      world := w
      events := [] }

/-! Concrete fixtures used by witness and counterexample theorems. -/

/-- Identity-flavoured concrete instantiation of the external pipeline. -/
def extId : Externals :=
  { splitChunks := fun ps => ps
    qaRun := fun _ q => String.append ("answer to ") q }

/-- A persisted document with id 1. -/
def doc1 : Document := { id := 1, pages := [("page one text"), ("page two text")] }

/-- A world holding `doc1`, with no persisted vectorstores. -/
def w1 : World := { docs := [doc1], fs := [], nextId := 2, embedCalls := 0 }

/-- A world holding `doc1` and a persisted vectorstore for id 1. -/
def w1c : World :=
  { docs := [doc1], fs := [(1, [("cached chunk")])], nextId := 2, embedCalls := 0 }

/-- A world with an empty document table (document 7 was deleted). -/
def wEmpty : World := { docs := [], fs := [], nextId := 8, embedCalls := 0 }

/-- A fresh session: no keys set. -/
def sessFresh : Session :=
  { uploaded_filename := none, document_id := none, conversation := none }

/-- A session with `doc1` loaded and an existing one-entry conversation. -/
def sessLoaded : Session :=
  { uploaded_filename := some ("report.pdf")
    document_id := some 1
    conversation := some [{ question := ("q0"), answer := ("a0") }] }

/-- A stale session: filename and document id 7 present, but no such
document exists in `wEmpty`. -/
def sessStale : Session :=
  { uploaded_filename := some ("report.pdf")
    document_id := some 7
    conversation := some [] }

/-- An ask-question POST with the given question field. -/
def askReq (q : Option String) : Request :=
  { isPost := true, upload_file := false, ask_question := true, reset := false
    clear_chat := false, questionField := q, fileField := none }

/-- An upload POST carrying the given file. -/
def uploadReq (f : Option UploadedFile) : Request :=
  { isPost := true, upload_file := true, ask_question := false, reset := false
    clear_chat := false, questionField := none, fileField := f }

/-- A reset POST. -/
def resetReq : Request :=
  { isPost := true, upload_file := false, ask_question := false, reset := true
    clear_chat := false, questionField := none, fileField := none }

/-- A clear-chat POST. -/
def clearReq : Request :=
  { isPost := true, upload_file := false, ask_question := false, reset := false
    clear_chat := true, questionField := none, fileField := none }

/-- A GET request with no markers. -/
def getReq : Request :=
  { isPost := false, upload_file := false, ask_question := false, reset := false
    clear_chat := false, questionField := none, fileField := none }

/-- A concrete uploaded file. -/
def file1 : UploadedFile :=
  { name := ("report.pdf"), pages := [("page one text"), ("page two text")] }

/-- A POST carrying all four action markers at once. -/
def allMarkersReq : Request :=
  { isPost := true, upload_file := true, ask_question := true, reset := true
    clear_chat := true, questionField := some ("q"), fileField := some file1 }

/-! Claim theorems. -/

/-- C1: the claim says an ask in a session whose document_id refers to a
deleted document is answered with a user-facing error message and no
crash.  The code instead calls `Document.objects.get(id=doc_id)`, which
raises `Document.DoesNotExist` uncaught when no row matches (the
"File missing." guard is reachable only when doc_id itself is falsy):
with document_id 7 in the session and an empty document table, the
view terminates with the unhandled exception. -/
theorem C1_stale_session_raises :
    (home extId wEmpty sessStale (askReq (some ("What is the total revenue?")))).outcome
      = Outcome.exn ("Document.DoesNotExist") := rfl

/-- C2: `get_vectorstore` with a persisted index at the document's
on-disk location loads and returns it, leaving the world (filesystem
and embedding-call count) unchanged — no rebuild, no re-embedding;
with no persisted index it splits the document, embeds its chunks (one
call per chunk), persists the result at that location and returns it. -/
theorem C2_get_vectorstore_cache_or_build (ext : Externals) (w : World) (doc : Document) :
    (∀ c, fsLookup w.fs doc.id = some c →
        get_vectorstore ext w doc
          = { store := { persistId := doc.id, chunks := c }
              world := w
              events := [Event.indexLoad doc.id] })
    ∧ (fsLookup w.fs doc.id = none →
        get_vectorstore ext w doc
          = { store := { persistId := doc.id, chunks := ext.splitChunks doc.pages }
              world := { w with
                          fs := (doc.id, ext.splitChunks doc.pages) :: w.fs
                          embedCalls := w.embedCalls + (ext.splitChunks doc.pages).length }
              events := [Event.indexBuild doc.id] }) := by
  constructor
  · intro c hc
    simp [get_vectorstore, hc]
  · intro hc
    simp [get_vectorstore, hc]

/-- Witness for C2 at a concrete cached world: document 1 has a
persisted index in `w1c`, and `get_vectorstore` returns it with the
world untouched. -/
theorem C2_get_vectorstore_cache_or_build_witness :
    get_vectorstore extId w1c doc1
      = { store := { persistId := 1, chunks := [("cached chunk")] }
          world := w1c
          events := [Event.indexLoad 1] } :=
  (C2_get_vectorstore_cache_or_build extId w1c doc1).1 [("cached chunk")] rfl

/-- C4: an ask submission in a fresh session (no uploaded_filename key)
renders the "Please upload a document first." error and leaves the
session and the world untouched. -/
theorem C4_ask_without_upload (ext : Externals) (w : World) (sess : Session) (req : Request)
    (hp : req.isPost = true) (hu : req.upload_file = false) (ha : req.ask_question = true)
    (hf : sess.uploaded_filename = none) :
    (home ext w sess req).outcome
        = Outcome.ok (Response.uploadPage [] (some ("Please upload a document first.")))
    ∧ (home ext w sess req).session = sess
    ∧ (home ext w sess req).world = w := by
  simp [home, homeAsk, hp, hu, ha, hf, pyTruthyStr]

/-- Witness for C4: a concrete ask in the fresh session. -/
theorem C4_ask_without_upload_witness :
    (home extId w1 sessFresh (askReq (some ("hello")))).outcome
        = Outcome.ok (Response.uploadPage [] (some ("Please upload a document first.")))
    ∧ (home extId w1 sessFresh (askReq (some ("hello")))).session = sessFresh
    ∧ (home extId w1 sessFresh (askReq (some ("hello")))).world = w1 :=
  C4_ask_without_upload extId w1 sessFresh (askReq (some ("hello"))) rfl rfl rfl rfl

/-- C5: a reset submission pops all three session keys in the same
request — the resulting session has uploaded_filename, document_id and
conversation all absent, never a strict subset. -/
theorem C5_reset_clears_all (ext : Externals) (w : World) (sess : Session) (req : Request)
    (hp : req.isPost = true) (hu : req.upload_file = false) (ha : req.ask_question = false)
    (hr : req.reset = true) :
    (home ext w sess req).session
        = { uploaded_filename := none, document_id := none, conversation := none }
    ∧ (home ext w sess req).outcome = Outcome.ok (Response.uploadPage [] none) := by
  simp [home, homeReset, hp, hu, ha, hr]

/-- Witness for C5: resetting a loaded session with history empties all
three keys at once. -/
theorem C5_reset_clears_all_witness :
    (home extId w1 sessLoaded resetReq).session
        = { uploaded_filename := none, document_id := none, conversation := none }
    ∧ (home extId w1 sessLoaded resetReq).outcome = Outcome.ok (Response.uploadPage [] none) :=
  C5_reset_clears_all extId w1 sessLoaded resetReq rfl rfl rfl rfl

/-- C3 counterexample: the claim says an invalid question re-renders
with the validation error reported inline, yet at a concrete invalid
(empty) question with a document loaded, the view renders
`upload_success.html` with a fresh `QuestionForm()` — the rendered
question form carries no errors at all. -/
theorem C3_counterexample_no_inline_error :
    ¬ (∃ fn errs conv,
        (home extId w1 sessLoaded (askReq (some ("")))).outcome
          = Outcome.ok (Response.uploadSuccess fn errs conv)
        ∧ errs ≠ []) := by
  have hev : (home extId w1 sessLoaded (askReq (some ("")))).outcome
      = Outcome.ok (Response.uploadSuccess (some ("report.pdf")) []
          [{ question := ("q0"), answer := ("a0") }]) := rfl
  rintro ⟨fn, errs, conv, heq, hne⟩
  rw [hev] at heq
  simp only [Outcome.ok.injEq, Response.uploadSuccess.injEq] at heq
  exact hne heq.2.1.symm

/-- C3 (amended): an ask submission with a document loaded whose
question fails validation (missing, empty after stripping, or longer
than 500 characters) does not invoke the language model, does not
mutate the session, and re-renders with a fresh (unbound) question
form, so the validation error is not reported inline. -/
theorem C3_invalid_question_no_llm_no_mutation (ext : Externals) (w : World)
    (sess : Session) (req : Request)
    (hp : req.isPost = true) (hu : req.upload_file = false) (ha : req.ask_question = true)
    (hf : pyTruthyStr sess.uploaded_filename = true)
    (i : Nat) (hid : sess.document_id = some i) (hi : i ≠ 0)
    (doc : Document) (hd : findDoc w.docs i = some doc)
    (hq : cleanedQuestion req.questionField = none) :
    (∀ q, Event.qaCall q ∉ (home ext w sess req).events)
    ∧ (home ext w sess req).session = sess
    ∧ (home ext w sess req).outcome
        = Outcome.ok (Response.uploadSuccess sess.uploaded_filename []
            (sess.conversation.getD [])) := by
  have hi' : (i != 0) = true := by simp [hi]
  rcases hfs : fsLookup w.fs doc.id with _ | c <;>
    simp [home, homeAsk, hp, hu, ha, hf, hid, hi', hd, hq, pyTruthyNat,
      get_vectorstore, hfs]

set_option maxRecDepth 4000 in
/-- Witness for C3 (amended): a 501-character question in the loaded
session is rejected without a QA call or session change. -/
theorem C3_invalid_question_no_llm_no_mutation_witness :
    (∀ q, Event.qaCall q
        ∉ (home extId w1 sessLoaded (askReq (some (String.mk (List.replicate 501 'x'))))).events)
    ∧ (home extId w1 sessLoaded (askReq (some (String.mk (List.replicate 501 'x'))))).session
        = sessLoaded
    ∧ (home extId w1 sessLoaded (askReq (some (String.mk (List.replicate 501 'x'))))).outcome
        = Outcome.ok (Response.uploadSuccess sessLoaded.uploaded_filename []
            (sessLoaded.conversation.getD [])) :=
  C3_invalid_question_no_llm_no_mutation extId w1 sessLoaded
    (askReq (some (String.mk (List.replicate 501 'x'))))
    rfl rfl rfl rfl 1 rfl (by decide) doc1 rfl (by decide)

/-- C6: a clear-chat submission empties the conversation and leaves
uploaded_filename and document_id untouched; consequently a subsequent
ask on the cleared session (document still present, question valid)
succeeds without a new upload, appending its one entry to the emptied
conversation. -/
theorem C6_clear_keeps_document (ext : Externals) (w : World) (sess : Session) (req : Request)
    (hp : req.isPost = true) (hu : req.upload_file = false) (ha : req.ask_question = false)
    (hr : req.reset = false) (hc : req.clear_chat = true) :
    ((home ext w sess req).session.conversation = some []
      ∧ (home ext w sess req).session.uploaded_filename = sess.uploaded_filename
      ∧ (home ext w sess req).session.document_id = sess.document_id
      ∧ (home ext w sess req).world = w)
    ∧ (∀ (req2 : Request) (i : Nat) (doc : Document) (q : String),
        req2.isPost = true → req2.upload_file = false → req2.ask_question = true →
        pyTruthyStr sess.uploaded_filename = true →
        sess.document_id = some i → i ≠ 0 →
        findDoc w.docs i = some doc →
        cleanedQuestion req2.questionField = some q →
        (home ext (home ext w sess req).world (home ext w sess req).session req2).session.conversation
          = some [{ question := q
                    answer := ext.qaRun (get_vectorstore ext w doc).store.chunks q }]) := by
  have hclear : home ext w sess req = homeClear w sess := by
    simp [home, hp, hu, ha, hr, hc]
  rw [hclear]
  refine ⟨⟨rfl, rfl, rfl, rfl⟩, ?_⟩
  intro req2 i doc q hp2 hu2 ha2 hf2 hid2 hi2 hd2 hq2
  have hi' : (i != 0) = true := by simp [hi2]
  rcases hfs : fsLookup w.fs doc.id with _ | c <;>
    simp [home, homeAsk, homeClear, hp2, hu2, ha2, hf2, hid2, hi', hd2, hq2,
      pyTruthyNat, get_vectorstore, hfs]

/-- Witness for C6: clear the loaded session, then ask a valid question
on the result. -/
theorem C6_clear_keeps_document_witness :
    ((home extId w1 sessLoaded clearReq).session.conversation = some []
      ∧ (home extId w1 sessLoaded clearReq).session.uploaded_filename
          = sessLoaded.uploaded_filename
      ∧ (home extId w1 sessLoaded clearReq).session.document_id = sessLoaded.document_id
      ∧ (home extId w1 sessLoaded clearReq).world = w1)
    ∧ (home extId (home extId w1 sessLoaded clearReq).world
          (home extId w1 sessLoaded clearReq).session
          (askReq (some ("next question")))).session.conversation
        = some [{ question := ("next question")
                  answer := extId.qaRun (get_vectorstore extId w1 doc1).store.chunks
                      ("next question") }] :=
  ⟨(C6_clear_keeps_document extId w1 sessLoaded clearReq rfl rfl rfl rfl rfl).1,
    (C6_clear_keeps_document extId w1 sessLoaded clearReq rfl rfl rfl rfl rfl).2
      (askReq (some ("next question"))) 1 doc1 ("next question")
      rfl rfl rfl rfl rfl (by decide) rfl (by decide)⟩

/-- C7: a successful ask (document loaded, question valid) sets the
session conversation to the previous conversation with exactly one
{question, answer} entry appended at the end — every earlier entry is
preserved unchanged in order. -/
theorem C7_ask_appends_one_entry (ext : Externals) (w : World) (sess : Session) (req : Request)
    (hp : req.isPost = true) (hu : req.upload_file = false) (ha : req.ask_question = true)
    (hf : pyTruthyStr sess.uploaded_filename = true)
    (i : Nat) (hid : sess.document_id = some i) (hi : i ≠ 0)
    (doc : Document) (hd : findDoc w.docs i = some doc)
    (q : String) (hq : cleanedQuestion req.questionField = some q) :
    (home ext w sess req).session.conversation
      = some (sess.conversation.getD []
          ++ [{ question := q
                answer := ext.qaRun (get_vectorstore ext w doc).store.chunks q }]) := by
  have hi' : (i != 0) = true := by simp [hi]
  simp [home, homeAsk, hp, hu, ha, hf, hid, hi', hd, hq, pyTruthyNat]

/-- Witness for C7: a valid second question appends to the existing
one-entry conversation, preserving the first entry. -/
theorem C7_ask_appends_one_entry_witness :
    (home extId w1 sessLoaded (askReq (some ("What is the total revenue?")))).session.conversation
      = some (sessLoaded.conversation.getD []
          ++ [{ question := ("What is the total revenue?")
                answer := extId.qaRun (get_vectorstore extId w1 doc1).store.chunks
                    ("What is the total revenue?") }]) :=
  C7_ask_appends_one_entry extId w1 sessLoaded
    (askReq (some ("What is the total revenue?")))
    rfl rfl rfl rfl 1 rfl (by decide) doc1 rfl
    ("What is the total revenue?") (by decide)

/-- C8: a valid upload persists the new Document, sets the session to
"document loaded, no history" (filename and id of the new upload,
conversation empty), and builds and persists the index synchronously
within the same request (embedding each chunk), before rendering the
success page. -/
theorem C8_upload_success (ext : Externals) (w : World) (sess : Session) (req : Request)
    (hp : req.isPost = true) (hu : req.upload_file = true)
    (f : UploadedFile) (hfile : req.fileField = some f)
    (hfresh : fsLookup w.fs w.nextId = none) :
    (home ext w sess req).world.docs = w.docs ++ [{ id := w.nextId, pages := f.pages }]
    ∧ (home ext w sess req).session
        = { uploaded_filename := some f.name
            document_id := some w.nextId
            conversation := some [] }
    ∧ fsLookup (home ext w sess req).world.fs w.nextId = some (ext.splitChunks f.pages)
    ∧ (home ext w sess req).world.embedCalls
        = w.embedCalls + (ext.splitChunks f.pages).length
    ∧ (home ext w sess req).events
        = [Event.docSave w.nextId, Event.indexBuild w.nextId]
    ∧ (home ext w sess req).outcome
        = Outcome.ok (Response.uploadSuccess (some f.name) [] []) := by
  simp [home, homeUpload, hp, hu, hfile, get_vectorstore, hfresh, fsLookup]

/-- Witness for C8: uploading `file1` into the fresh session on `w1`. -/
theorem C8_upload_success_witness :
    (home extId w1 sessFresh (uploadReq (some file1))).world.docs
        = w1.docs ++ [{ id := w1.nextId, pages := file1.pages }]
    ∧ (home extId w1 sessFresh (uploadReq (some file1))).session
        = { uploaded_filename := some file1.name
            document_id := some w1.nextId
            conversation := some [] }
    ∧ fsLookup (home extId w1 sessFresh (uploadReq (some file1))).world.fs w1.nextId
        = some (extId.splitChunks file1.pages)
    ∧ (home extId w1 sessFresh (uploadReq (some file1))).world.embedCalls
        = w1.embedCalls + (extId.splitChunks file1.pages).length
    ∧ (home extId w1 sessFresh (uploadReq (some file1))).events
        = [Event.docSave w1.nextId, Event.indexBuild w1.nextId]
    ∧ (home extId w1 sessFresh (uploadReq (some file1))).outcome
        = Outcome.ok (Response.uploadSuccess (some file1.name) [] []) :=
  C8_upload_success extId w1 sessFresh (uploadReq (some file1)) rfl rfl file1 rfl rfl

/-- C9: an ask with a document loaded performs the index load/build
first, then validates the question form, and only afterwards (if at
all) calls the QA chain: the event trace starts with an index event
followed by the validation event; when the question is invalid the
trace stops there, so the index access happened regardless. -/
theorem C9_index_before_validation (ext : Externals) (w : World) (sess : Session) (req : Request)
    (hp : req.isPost = true) (hu : req.upload_file = false) (ha : req.ask_question = true)
    (hf : pyTruthyStr sess.uploaded_filename = true)
    (i : Nat) (hid : sess.document_id = some i) (hi : i ≠ 0)
    (doc : Document) (hd : findDoc w.docs i = some doc) :
    ∃ e tail,
      (home ext w sess req).events = e :: Event.validateQuestion :: tail
      ∧ (e = Event.indexLoad doc.id ∨ e = Event.indexBuild doc.id)
      ∧ (cleanedQuestion req.questionField = none → tail = []) := by
  have hi' : (i != 0) = true := by simp [hi]
  rcases hfs : fsLookup w.fs doc.id with _ | c
  · rcases hq : cleanedQuestion req.questionField with _ | q
    · refine ⟨Event.indexBuild doc.id, [], ?_, Or.inr rfl, fun _ => rfl⟩
      simp [home, homeAsk, hp, hu, ha, hf, hid, hi', hd, hq, pyTruthyNat,
        get_vectorstore, hfs]
    · refine ⟨Event.indexBuild doc.id, [Event.qaCall q], ?_, Or.inr rfl, ?_⟩
      · simp [home, homeAsk, hp, hu, ha, hf, hid, hi', hd, hq, pyTruthyNat,
          get_vectorstore, hfs]
      · intro hc
        simp [hq] at hc
  · rcases hq : cleanedQuestion req.questionField with _ | q
    · refine ⟨Event.indexLoad doc.id, [], ?_, Or.inl rfl, fun _ => rfl⟩
      simp [home, homeAsk, hp, hu, ha, hf, hid, hi', hd, hq, pyTruthyNat,
        get_vectorstore, hfs]
    · refine ⟨Event.indexLoad doc.id, [Event.qaCall q], ?_, Or.inl rfl, ?_⟩
      · simp [home, homeAsk, hp, hu, ha, hf, hid, hi', hd, hq, pyTruthyNat,
          get_vectorstore, hfs]
      · intro hc
        simp [hq] at hc

/-- Witness for C9: an ask with an invalid (empty) question in the
loaded session still accesses the index before validating. -/
theorem C9_index_before_validation_witness :
    ∃ e tail,
      (home extId w1 sessLoaded (askReq (some ("")))).events
          = e :: Event.validateQuestion :: tail
      ∧ (e = Event.indexLoad doc1.id ∨ e = Event.indexBuild doc1.id)
      ∧ (cleanedQuestion (askReq (some (""))).questionField = none → tail = []) :=
  C9_index_before_validation extId w1 sessLoaded (askReq (some ("")))
    rfl rfl rfl rfl 1 rfl (by decide) doc1 rfl

/-- C10: the `if/elif` chain gives the four markers the fixed
precedence upload_file > ask_question > reset > clear_chat — a request
carrying several markers behaves exactly as one carrying only the
highest-precedence marker, so exactly one branch executes — and a GET,
or a POST with no marker, renders the upload form and leaves session
and world untouched. -/
theorem C10_dispatch_precedence (ext : Externals) (w : World) (sess : Session) (req : Request) :
    (req.isPost = true → req.upload_file = true →
        home ext w sess req
          = home ext w sess
              { req with ask_question := false, reset := false, clear_chat := false })
    ∧ (req.isPost = true → req.upload_file = false → req.ask_question = true →
        home ext w sess req
          = home ext w sess { req with reset := false, clear_chat := false })
    ∧ (req.isPost = true → req.upload_file = false → req.ask_question = false →
        req.reset = true →
        home ext w sess req = home ext w sess { req with clear_chat := false })
    ∧ (req.isPost = false ∨
        (req.upload_file = false ∧ req.ask_question = false ∧ req.reset = false
          ∧ req.clear_chat = false) →
        home ext w sess req
          = { outcome := Outcome.ok (Response.uploadPage [] none)
              session := sess
              world := w
              events := [] }) := by
  refine ⟨?_, ?_, ?_, ?_⟩
  · intro hp hu
    simp [home, hp, hu, homeUpload]
  · intro hp hu ha
    simp [home, hp, hu, ha, homeAsk]
  · intro hp hu ha hr
    simp [home, hp, hu, ha, hr]
  · rintro (hp | ⟨hu, ha, hr, hc⟩)
    · simp [home, hp]
    · simp [home, hu, ha, hr, hc]

/-- Witness for C10: a POST carrying all four markers behaves as a pure
upload, and a GET renders the upload form without touching state. -/
theorem C10_dispatch_precedence_witness :
    home extId w1 sessLoaded allMarkersReq
      = home extId w1 sessLoaded
          { allMarkersReq with ask_question := false, reset := false, clear_chat := false }
    ∧ home extId w1 sessLoaded getReq
      = { outcome := Outcome.ok (Response.uploadPage [] none)
          session := sessLoaded
          world := w1
          events := [] } :=
  ⟨(C10_dispatch_precedence extId w1 sessLoaded allMarkersReq).1 rfl rfl,
    (C10_dispatch_precedence extId w1 sessLoaded getReq).2.2.2 (Or.inl rfl)⟩

end DocChat
